import Mathlib

/-
Verification of the audio-source discovery/selection workflow and chat loop
of the LocalAI-Speech repository (src/ai-response-speech.py and
src/gpt4all_speech.py), as a shallow embedding in Lean 4.

External effects (microphone open/calibrate, recognizer.listen, Google
speech recognition, HTTP requests, operator keyboard input) are modelled
as explicit environment values fed to the embedded functions; Python
exceptions that the code catches become ordinary constructor cases, and
exceptions that escape become Except.error results.
-/

namespace LocalAISpeech

/-- Outcome of recognizer.listen on a source: a raised sr.WaitTimeoutError,
or a captured audio buffer (identified by an abstract id). -/
inductive ListenOutcome where
  | timeout
  | audio (buf : Nat)
  deriving DecidableEq

/-- Outcome of recognizer.recognize_google on a captured buffer: recognized
text, a raised sr.UnknownValueError, or a raised sr.RequestError. -/
inductive RecognizeOutcome where
  | text (s : String)
  | unknownValue
  | requestError (msg : String)
  deriving DecidableEq

/-- Behaviour of the external audio world during one open/listen/recognize
attempt. openOk says whether entering the microphone context manager and
the ambient-noise calibration succeed without an exception; when it is
false, openIsOSError distinguishes an OSError from any other exception. -/
structure AudioEnv where
  openOk : Bool
  openIsOSError : Bool
  listen : ListenOutcome
  recognize : RecognizeOutcome
  deriving DecidableEq

/-- Per-case diagnostic printed by test_audio_source. -/
inductive TestReport where
  | outOfRange (idx : Nat)
  | noAudio
  | unrecognized
  | recognized (text : String)
  | deviceError
  | testError
  deriving DecidableEq

/-- Python str.lower restricted to the per-character case mapping
(faithful on the ASCII menu strings and quit words the program compares). -/
def pyLower (s : String) : String :=
  ⟨s.data.map Char.toLower⟩

/-- Embedding of test_audio_source (src/ai-response-speech.py lines 107-152).
Guard: device_index >= len(names) returns False with an out-of-range
message. Then, under the try, a timeout prints "No audio detected",
sr.UnknownValueError prints "Audio detected but could not be recognized",
success prints the recognized text and returns True; an OSError while
opening prints "Cannot access audio device", and any other escaping
exception (including sr.RequestError from recognize_google, which the
inner try does not catch) prints "Error testing source". -/
def test_audio_source (names : List String) (device_index : Nat) (env : AudioEnv) :
    TestReport × Bool :=
  if names.length ≤ device_index then (.outOfRange device_index, false)
  else if env.openOk then
    match env.listen with
    | .timeout => (.noAudio, false)
    | .audio _ =>
      match env.recognize with
      | .text t => (.recognized t, true)
      | .unknownValue => (.unrecognized, false)
      | .requestError _ => (.testError, false)
  else if env.openIsOSError then (.deviceError, false)
  else (.testError, false)

/-- Python enumerate over the device-name list, starting at a given index. -/
def enumFromIdx : Nat → List String → List (Nat × String)
  | _, [] => []
  | i, n :: rest => (i, n) :: enumFromIdx (i + 1) rest

/-- enumerate(sr.Microphone.list_microphone_names()). -/
def enumNames (names : List String) : List (Nat × String) :=
  enumFromIdx 0 names

/-- Embedding of get_valid_audio_sources (lines 85-105): each enumerated
device is opened and calibrated inside a try; the ones that do not raise
are kept. probeOk gives the outcome of that try per device index. -/
def get_valid_audio_sources (names : List String) (probeOk : Nat → Bool) :
    List (Nat × String) :=
  (enumNames names).filter fun p => probeOk p.1

/-- Whether a needle list of characters occurs at the start of a haystack. -/
def charsBeginWith : List Char → List Char → Bool
  | [], _ => true
  | _ :: _, [] => false
  | c :: cs, d :: ds => c == d && charsBeginWith cs ds

/-- Whether a needle list of characters occurs contiguously anywhere in a
haystack (the Python substring test `needle in hay`). -/
def charsContain (needle : List Char) : List Char → Bool
  | [] => needle.isEmpty
  | d :: ds => charsBeginWith needle (d :: ds) || charsContain needle ds

/-- Case-insensitive substring test: source.lower() in name.lower(). -/
def containsCI (name pat : String) : Bool :=
  charsContain (pyLower pat).data (pyLower name).data

/-- Fixed alias list of find_stereo_mix (lines 65-69). -/
def potential_sources : List String :=
  ["Stereo Mix", "Stereo", "Mixed", "Mix",
   "What U Hear", "What You Hear",
   "Speakers", "Output"]

/-- Embedding of find_stereo_mix (lines 62-83): keep the enumerated
(index, name) pairs whose name contains one of the aliases
case-insensitively. -/
def find_stereo_mix (names : List String) : List (Nat × String) :=
  (enumNames names).filter fun p =>
    potential_sources.any fun pat => containsCI p.2 pat

/-- Device index handed to sr.Microphone: none is the system default
(sr.Microphone() with no argument). -/
abbrev Mic := Option Nat

/-- Mutable assistant state the selector touches: the self.microphone
attribute, none while the attribute is still unset. -/
structure SelState where
  microphone : Option Mic
  deriving DecidableEq

/-- Operator input and external-world behaviour consumed by one iteration
of the setup_audio_source menu loop: the menu choice string, the current
device enumeration, the per-device quick-probe outcome, the parsed index
the operator typed (none when int(input()) raised ValueError), and the
audio world for the extended test. -/
structure IterInput where
  choice : String
  names : List String
  probeOk : Nat → Bool
  indexInput : Option Int
  testEnv : AudioEnv

/-- One iteration of the setup_audio_source while-loop (lines 154-219).
Returns the updated state plus some result exactly when the iteration
executes a return; none means the loop prints a message and re-enters the
menu. Choice 4 assigns self.microphone before testing the device and
returns True only when test_audio_source succeeds; choice 5 returns
False. -/
def setup_step (st : SelState) (it : IterInput) : SelState × Option Bool :=
  if it.choice = "1" then (st, none)
  else if it.choice = "2" then (st, none)
  else if it.choice = "3" then
    let valid := get_valid_audio_sources it.names it.probeOk
    if valid.isEmpty then (st, none)
    else
      match it.indexInput with
      | none => (st, none)
      | some i =>
        if i ∈ valid.map (fun p => (p.1 : Int)) then
          (st, none)
        else (st, none)
  else if it.choice = "4" then
    let valid := get_valid_audio_sources it.names it.probeOk
    if valid.isEmpty then (st, none)
    else
      match it.indexInput with
      | none => (st, none)
      | some i =>
        if i ∈ valid.map (fun p => (p.1 : Int)) then
          let st2 : SelState := ⟨some (some i.toNat)⟩
          if (test_audio_source it.names i.toNat it.testEnv).2 then (st2, some true)
          else (st2, none)
        else (st, none)
  else if it.choice = "5" then (st, some false)
  else (st, none)

/-- The setup_audio_source loop run over a finite script of iteration
inputs; none means the script ended with the loop still in the menu. -/
def setup_audio_source : SelState → List IterInput → SelState × Option Bool
  | st, [] => (st, none)
  | st, it :: rest =>
    match setup_step st it with
    | (st2, some b) => (st2, some b)
    | (st2, none) => setup_audio_source st2 rest

/-- Embedding of listen (lines 221-254). When self.microphone is unset it
first assigns the system default; every failure (exception while opening,
timeout, sr.UnknownValueError, sr.RequestError) is caught and yields the
empty string. Returns the device actually used together with the text. -/
def listen (micAttr : Option Mic) (env : AudioEnv) : Mic × String :=
  let mic : Mic :=
    match micAttr with
    | none => none
    | some m => m
  let text : String :=
    if env.openOk then
      match env.listen with
      | .timeout => ""
      | .audio _ =>
        match env.recognize with
        | .text t => t
        | .unknownValue => ""
        | .requestError _ => ""
    else ""
  (mic, text)

/-- Result of requests.post to the completions endpoint: none models a
raised requests.exceptions.RequestException; otherwise the status code and
the choices[0].message.content string of the JSON body. -/
structure ChatResponse where
  status_code : Nat
  content : String
  deriving DecidableEq

/-- Embedding of generate_response (lines 265-291): a 200 response yields
the stripped content; any other status or a request exception raises
ConnectionError, modelled as Except.error. -/
def generate_response (resp : Option ChatResponse) : Except String String :=
  match resp with
  | none => .error "Failed to generate text: request exception"
  | some r =>
    if r.status_code = 200 then .ok r.content.trim
    else .error "Failed to generate text: bad status code"

/-- Embedding of generate_text of src/gpt4all_speech.py (lines 24-50),
identical in control flow to generate_response. -/
def generate_text (resp : Option ChatResponse) : Except String String :=
  match resp with
  | none => .error "Failed to generate text: request exception"
  | some r =>
    if r.status_code = 200 then .ok r.content.trim
    else .error "Failed to generate text: bad status code"

/-- Quit words of both chat loops. -/
def quitWords : List String := ["quit", "exit", "bye"]

/-- External behaviour consumed by one voice-input iteration of
run_interactive: the audio world for listen and the completion-API
response. -/
structure TurnEnv where
  listenEnv : AudioEnv
  apiResponse : Option ChatResponse
  deriving DecidableEq

/-- Observable actions of one run_interactive iteration. -/
structure TurnTrace where
  apiCalled : Bool
  spoken : Option String
  terminated : Bool
  deriving DecidableEq

/-- One voice-input iteration of run_interactive (lines 293-317): an empty
listen result skips the turn; a quit word speaks "Goodbye!" and breaks;
otherwise generate_response is called and its reply spoken, any exception
being caught so the loop continues. Returns the microphone used plus the
trace. -/
def run_turn (micAttr : Option Mic) (env : TurnEnv) : Mic × TurnTrace :=
  let r := listen micAttr env.listenEnv
  let user_input := r.2
  if user_input = "" then (r.1, ⟨false, none, false⟩)
  else if quitWords.contains (pyLower user_input) then
    (r.1, ⟨false, some "Goodbye!", true⟩)
  else
    match generate_response env.apiResponse with
    | .ok reply => (r.1, ⟨true, some reply, false⟩)
    | .error _ => (r.1, ⟨true, none, false⟩)

/-- One typed-input iteration of run_interactive (voice_input = False). -/
def run_turn_typed (user_input : String) (resp : Option ChatResponse) : TurnTrace :=
  if quitWords.contains (pyLower user_input) then
    ⟨false, some "Goodbye!", true⟩
  else
    match generate_response resp with
    | .ok reply => ⟨true, some reply, false⟩
    | .error _ => ⟨true, none, false⟩

/-- Observable actions of one iteration of the standalone loop at the
bottom of src/gpt4all_speech.py: what it printed as a farewell, what it
passed to speech_module.speak, whether the completion API was called, and
whether the loop broke. -/
structure TypedTrace where
  printedFarewell : Bool
  spoke : Option String
  apiCalled : Bool
  terminated : Bool
  deriving DecidableEq

/-- One iteration of the main loop of src/gpt4all_speech.py (lines
128-143): a quit word prints "Goodbye!" and breaks without calling speak;
otherwise generate_text is called and its result both printed and spoken,
any exception being caught so the loop continues. -/
def gpt4all_main_turn (user_input : String) (resp : Option ChatResponse) :
    TypedTrace :=
  if quitWords.contains (pyLower user_input) then
    ⟨true, none, false, true⟩
  else
    match generate_text resp with
    | .ok text => ⟨false, some text, true, false⟩
    | .error _ => ⟨false, none, true, false⟩

/-- Embedding of _check_server_connection (lines 33-43): the GET result is
none for a raised RequestException, otherwise the status code. A 200
returns True; any other outcome raises ConnectionError out of the method
(and hence out of __init__). -/
def check_server_connection (modelsStatus : Option Nat) : Except String Bool :=
  match modelsStatus with
  | some code =>
    if code = 200 then .ok true
    else .error "Failed to connect to GPT4ALL server: bad status code"
  | none => .error "Could not connect to GPT4ALL server: request exception"

/-- Observable outcome of main (lines 319-328): whether the setup menu was
entered, whether run_interactive was invoked, and the ConnectionError that
escaped construction if one did. -/
structure MainRun where
  menuEntered : Bool
  ranSession : Bool
  startupError : Option String
  deriving DecidableEq

/-- Embedding of main: constructing GPT4AllVoiceAssistant runs the health
check and lets its ConnectionError escape; on success setup_audio_source
runs, and run_interactive is invoked exactly when it returned True. -/
def main (modelsStatus : Option Nat) (script : List IterInput) : MainRun :=
  match check_server_connection modelsStatus with
  | .error msg => ⟨false, false, some msg⟩
  | .ok _ =>
    match setup_audio_source ⟨none⟩ script with
    | (_, some true) => ⟨true, true, none⟩
    | _ => ⟨true, false, none⟩

/-- Every pair produced by enumFromIdx carries an index between the start
index and start index plus length. -/
theorem enumFromIdx_mem_bounds (names : List String) :
    ∀ (k : Nat) (p : Nat × String), p ∈ enumFromIdx k names →
      k ≤ p.1 ∧ p.1 < k + names.length := by
  induction names with
  | nil =>
    intro k p hp
    simp [enumFromIdx] at hp
  | cons n rest ih =>
    intro k p hp
    simp only [enumFromIdx, List.mem_cons] at hp
    rcases hp with h | h
    · subst h
      simp only [List.length_cons]
      omega
    · have hb := ih (k + 1) p h
      simp only [List.length_cons]
      omega

/-- Indices of devices kept by get_valid_audio_sources are within the
enumeration range. -/
theorem valid_source_index_lt (names : List String) (probeOk : Nat → Bool)
    (p : Nat × String) (hp : p ∈ get_valid_audio_sources names probeOk) :
    p.1 < names.length := by
  have hm : p ∈ enumNames names := List.mem_of_mem_filter hp
  have hb := enumFromIdx_mem_bounds names 0 p hm
  omega

/-- A negative or out-of-range integer index never appears among the valid
source indices. -/
theorem bad_index_not_valid (names : List String) (probeOk : Nat → Bool)
    (i : Int) (hbad : i < 0 ∨ (names.length : Int) ≤ i) :
    i ∉ (get_valid_audio_sources names probeOk).map (fun p => (p.1 : Int)) := by
  intro hmem
  rcases List.mem_map.mp hmem with ⟨p, hp, hpi⟩
  have hlt := valid_source_index_lt names probeOk p hp
  omega

/-- C1: for every device that opens successfully, test_audio_source
distinguishes exactly three outcomes: a listen timeout reports "no audio"
and returns false; captured audio that the recognizer cannot turn into
text reports "unrecognized" and returns false; successful recognition
reports the text and returns true. A silent device is never reported as
"unrecognized" or as success, and a device whose signal is captured is
never reported as "no audio". -/
theorem test_source_three_outcomes (names : List String) (i : Nat)
    (env : AudioEnv) (hidx : i < names.length) (hopen : env.openOk = true) :
    (env.listen = .timeout →
      test_audio_source names i env = (.noAudio, false)) ∧
    (∀ b, env.listen = .audio b → env.recognize = .unknownValue →
      test_audio_source names i env = (.unrecognized, false)) ∧
    (∀ b t, env.listen = .audio b → env.recognize = .text t →
      test_audio_source names i env = (.recognized t, true)) ∧
    (env.listen = .timeout →
      (test_audio_source names i env).1 ≠ .unrecognized ∧
      (test_audio_source names i env).2 = false ∧
      ∀ t, (test_audio_source names i env).1 ≠ .recognized t) ∧
    (∀ b, env.listen = .audio b →
      (test_audio_source names i env).1 ≠ .noAudio) := by
  have hno : ¬ names.length ≤ i := by omega
  refine ⟨?_, ?_, ?_, ?_, ?_⟩
  · intro h
    simp [test_audio_source, hno, hopen, h]
  · intro b hb hr
    simp [test_audio_source, hno, hopen, hb, hr]
  · intro b t hb hr
    simp [test_audio_source, hno, hopen, hb, hr]
  · intro h
    simp [test_audio_source, hno, hopen, h]
  · intro b hb
    rcases hr : env.recognize with t | _ | m <;>
      simp [test_audio_source, hno, hopen, hb, hr]

/-- Witness for C1 at a one-device list with a silent source. -/
theorem test_source_three_outcomes_witness :
    0 < (["Mic"] : List String).length ∧
    (⟨true, true, .timeout, .unknownValue⟩ : AudioEnv).openOk = true ∧
    test_audio_source ["Mic"] 0 ⟨true, true, .timeout, .unknownValue⟩ =
      (.noAudio, false) :=
  ⟨by decide, rfl,
    (test_source_three_outcomes ["Mic"] 0 ⟨true, true, .timeout, .unknownValue⟩
      (by decide) rfl).1 rfl⟩

/-- C2: for every device index outside the enumeration range, negative
indices included, and for a non-numeric index entry, both the "test"
option (3) and the "select" option (4) of the setup menu leave the state
unchanged and fall through to the next menu iteration without raising. -/
theorem invalid_index_rejected (st : SelState) (it : IterInput)
    (hc : it.choice = "3" ∨ it.choice = "4")
    (hbad : it.indexInput = none ∨
      ∃ i : Int, it.indexInput = some i ∧
        (i < 0 ∨ (it.names.length : Int) ≤ i)) :
    setup_step st it = (st, none) := by
  rcases hc with hc | hc <;>
    rcases hbad with hb | ⟨i, hb, hrange⟩
  · simp [setup_step, hc, hb]
  · have hnot := bad_index_not_valid it.names it.probeOk i hrange
    simp [setup_step, hc, hb, hnot]
  · simp [setup_step, hc, hb]
  · have hnot := bad_index_not_valid it.names it.probeOk i hrange
    simp [setup_step, hc, hb, hnot]

/-- Witness for C2 with the index -1 entered against a one-device list. -/
theorem invalid_index_rejected_witness :
    setup_step ⟨none⟩
        ⟨"3", ["Mic"], fun _ => true, some (-1),
          ⟨true, true, .timeout, .unknownValue⟩⟩ =
      (⟨none⟩, none) :=
  invalid_index_rejected ⟨none⟩
    ⟨"3", ["Mic"], fun _ => true, some (-1),
      ⟨true, true, .timeout, .unknownValue⟩⟩
    (Or.inl rfl) (Or.inr ⟨-1, rfl, Or.inl (by decide)⟩)

/-- C7: find_stereo_mix keeps exactly the enumerated (index, name) pairs
whose name contains one of the fixed aliases case-insensitively, and on
the enumeration ["Built-in Mic", "Stereo Mix"] it returns exactly
[(1, "Stereo Mix")]. -/
theorem find_stereo_mix_characterization :
    (∀ (names : List String) (p : Nat × String),
      p ∈ find_stereo_mix names ↔
        p ∈ enumNames names ∧
          (potential_sources.any fun pat => containsCI p.2 pat) = true) ∧
    find_stereo_mix ["Built-in Mic", "Stereo Mix"] = [(1, "Stereo Mix")] := by
  constructor
  · intro names p
    simp [find_stereo_mix, List.mem_filter]
  · decide

/-- A menu iteration returns True only from the choice-4 branch, and only
when the extended test of the entered index succeeded. -/
theorem setup_step_confirm (st st2 : SelState) (it : IterInput)
    (h : setup_step st it = (st2, some true)) :
    it.choice = "4" ∧ ∃ i : Int, it.indexInput = some i ∧
      (test_audio_source it.names i.toNat it.testEnv).2 = true := by
  by_cases h1 : it.choice = "1"
  · simp [setup_step, h1] at h
  by_cases h2 : it.choice = "2"
  · simp [setup_step, h1, h2] at h
  by_cases h3 : it.choice = "3"
  · rcases hI : it.indexInput with _ | i <;>
      simp [setup_step, h1, h2, h3, hI] at h
  by_cases h4 : it.choice = "4"
  · rcases hI : it.indexInput with _ | i
    · by_cases hEmp : (get_valid_audio_sources it.names it.probeOk).isEmpty <;>
        simp [setup_step, h1, h2, h3, h4, hI, hEmp] at h
    · by_cases htest : (test_audio_source it.names i.toNat it.testEnv).2 = true
      · exact ⟨h4, i, rfl, htest⟩
      · by_cases hEmp : (get_valid_audio_sources it.names it.probeOk).isEmpty
        · simp [setup_step, h1, h2, h3, h4, hEmp] at h
        · by_cases hmem :
            i ∈ (get_valid_audio_sources it.names it.probeOk).map
              (fun p => (p.1 : Int))
          · simp [setup_step, h1, h2, h3, h4, hI, hEmp, hmem, htest] at h
          · simp [setup_step, h1, h2, h3, h4, hI, hEmp, hmem] at h
  by_cases h5 : it.choice = "5"
  · simp [setup_step, h1, h2, h3, h4, h5] at h
  · simp [setup_step, h1, h2, h3, h4, h5] at h

/-- C3: the selector confirms (setup_audio_source returns True) only when
some script iteration chose option 4 with an index whose extended
test_audio_source probe succeeded; and a choice-4 iteration whose probe
fails returns no result, so the loop re-enters the menu instead of
confirming. -/
theorem confirmed_requires_probe_pass :
    (∀ (st : SelState) (script : List IterInput) (st2 : SelState),
      setup_audio_source st script = (st2, some true) →
      ∃ it ∈ script, it.choice = "4" ∧ ∃ i : Int, it.indexInput = some i ∧
        (test_audio_source it.names i.toNat it.testEnv).2 = true) ∧
    (∀ (st : SelState) (it : IterInput) (i : Int), it.choice = "4" →
      it.indexInput = some i →
      (test_audio_source it.names i.toNat it.testEnv).2 = false →
      (setup_step st it).2 = none) := by
  constructor
  · intro st script
    induction script generalizing st with
    | nil =>
      intro st2 h
      simp [setup_audio_source] at h
    | cons it rest ih =>
      intro st2 h
      rcases hs : setup_step st it with ⟨st3, ob⟩
      simp only [setup_audio_source, hs] at h
      rcases ob with _ | b
      · rcases ih st3 st2 h with ⟨it2, hmem, hrest⟩
        exact ⟨it2, List.mem_cons_of_mem _ hmem, hrest⟩
      · injection h with hA hB
        injection hB with hb
        subst hb
        obtain ⟨hc, i, hI, ht⟩ := setup_step_confirm st st3 it hs
        exact ⟨it, List.mem_cons_self it rest, hc, i, hI, ht⟩
  · intro st it i h4 hI htest
    by_cases hEmp : (get_valid_audio_sources it.names it.probeOk).isEmpty
    · simp [setup_step, h4, hEmp]
    · by_cases hmem :
        i ∈ (get_valid_audio_sources it.names it.probeOk).map
          (fun p => (p.1 : Int))
      · simp [setup_step, h4, hEmp, hI, hmem, htest]
      · simp [setup_step, h4, hEmp, hI, hmem]

/-- Witness for C3: a script that confirms on a passing probe, plus a
choice-4 iteration whose probe times out and returns to the menu. -/
theorem confirmed_requires_probe_pass_witness :
    (setup_audio_source ⟨none⟩
        [⟨"4", ["Mic"], fun _ => true, some 0,
          ⟨true, true, .audio 0, .text "hello"⟩⟩] =
        (⟨some (some 0)⟩, some true) ∧
      ∃ it ∈ [(⟨"4", ["Mic"], fun _ => true, some 0,
            ⟨true, true, .audio 0, .text "hello"⟩⟩ : IterInput)],
        it.choice = "4" ∧ ∃ i : Int, it.indexInput = some i ∧
          (test_audio_source it.names i.toNat it.testEnv).2 = true) ∧
    ((test_audio_source ["Mic"] 0 ⟨true, true, .timeout, .unknownValue⟩).2 =
        false ∧
      (setup_step ⟨none⟩
        ⟨"4", ["Mic"], fun _ => true, some 0,
          ⟨true, true, .timeout, .unknownValue⟩⟩).2 = none) :=
  ⟨⟨by decide,
    confirmed_requires_probe_pass.1 ⟨none⟩ _ ⟨some (some 0)⟩ (by decide)⟩,
   ⟨by decide,
    confirmed_requires_probe_pass.2 ⟨none⟩ _ 0 rfl rfl (by decide)⟩⟩

/-- C5: the startup health check accepts exactly a 200 response from the
models endpoint; any other status, and a connection failure, make
check_server_connection raise out of construction so main never enters
the setup menu. -/
theorem startup_aborts_on_failed_health_check (code : Nat) (hc : code ≠ 200)
    (script : List IterInput) :
    check_server_connection (some 200) = .ok true ∧
    (main (some code) script).startupError.isSome = true ∧
    (main (some code) script).menuEntered = false ∧
    (main none script).startupError.isSome = true ∧
    (main none script).menuEntered = false := by
  refine ⟨rfl, ?_, ?_, rfl, rfl⟩ <;>
    simp [main, check_server_connection, hc]

/-- Witness for C5 at an HTTP 500 health-check response. -/
theorem startup_aborts_on_failed_health_check_witness :
    (500 : Nat) ≠ 200 ∧
    (main (some 500) []).startupError.isSome = true ∧
    (main (some 500) []).menuEntered = false :=
  ⟨by decide,
   (startup_aborts_on_failed_health_check 500 (by decide) []).2.1,
   (startup_aborts_on_failed_health_check 500 (by decide) []).2.2.1⟩

/-- C6: choosing option 5 makes the iteration return False immediately
with the state untouched, and whenever setup_audio_source reports False,
main does not invoke run_interactive. -/
theorem cancel_never_starts_session :
    (∀ (st : SelState) (it : IterInput), it.choice = "5" →
      setup_step st it = (st, some false)) ∧
    (∀ (script : List IterInput) (st2 : SelState),
      setup_audio_source ⟨none⟩ script = (st2, some false) →
      main (some 200) script = ⟨true, false, none⟩) := by
  constructor
  · intro st it h5
    simp [setup_step, h5]
  · intro script st2 h
    simp [main, check_server_connection, h]

/-- Witness for C6: a script whose first choice is 5. -/
theorem cancel_never_starts_session_witness :
    (setup_step ⟨none⟩
        ⟨"5", [], fun _ => true, none, ⟨true, true, .timeout, .unknownValue⟩⟩ =
      (⟨none⟩, some false)) ∧
    (main (some 200)
        [⟨"5", [], fun _ => true, none, ⟨true, true, .timeout, .unknownValue⟩⟩] =
      ⟨true, false, none⟩) :=
  ⟨cancel_never_starts_session.1 ⟨none⟩ _ rfl,
   cancel_never_starts_session.2 _ ⟨none⟩ (by decide)⟩

/-- C4: every device- or audio-level failure is converted into a status
value or the empty string. A device that fails to open makes
test_audio_source return false, and makes listen return ""; so do a
listen timeout, an sr.UnknownValueError and an sr.RequestError during
recognition; and a completion-API failure during a session turn is caught
inside run_turn, which continues to the next turn without speaking. -/
theorem failures_are_contained
    (names : List String) (i : Nat) (osFlag osFlag2 osFlag3 : Bool)
    (lo lo2 : ListenOutcome) (ro ro2 ro3 : RecognizeOutcome)
    (mic1 mic2 mic3 mic4 mic5 : Option Mic)
    (b1 b2 b3 : Nat) (msg : String)
    (resp : Option ChatResponse) (e t : String)
    (ht : t ≠ "") (hq : quitWords.contains (pyLower t) = false)
    (herr : generate_response resp = .error e) :
    (test_audio_source names i ⟨false, osFlag, lo, ro⟩).2 = false ∧
    (listen mic1 ⟨false, osFlag2, lo2, ro2⟩).2 = "" ∧
    (listen mic2 ⟨true, osFlag3, .timeout, ro3⟩).2 = "" ∧
    (listen mic3 ⟨true, osFlag3, .audio b1, .unknownValue⟩).2 = "" ∧
    (listen mic4 ⟨true, osFlag3, .audio b2, .requestError msg⟩).2 = "" ∧
    (run_turn mic5 ⟨⟨true, osFlag3, .audio b3, .text t⟩, resp⟩).2 =
      ⟨true, none, false⟩ := by
  refine ⟨?_, rfl, rfl, rfl, rfl, ?_⟩
  · by_cases hle : names.length ≤ i <;> cases osFlag <;>
      simp [test_audio_source, hle]
  · simp at hq
    simp [run_turn, listen, ht, hq, herr]

/-- Witness for C4 with a request exception on the completions endpoint
and a user utterance "hello". -/
theorem failures_are_contained_witness :
    ("hello" : String) ≠ "" ∧
    quitWords.contains (pyLower "hello") = false ∧
    generate_response none =
      .error "Failed to generate text: request exception" ∧
    (test_audio_source ["Mic"] 0 ⟨false, true, .timeout, .unknownValue⟩).2 =
      false ∧
    (listen none ⟨false, true, .timeout, .unknownValue⟩).2 = "" ∧
    (run_turn none ⟨⟨true, true, .audio 0, .text "hello"⟩, none⟩).2 =
      ⟨true, none, false⟩ := by
  have h := failures_are_contained ["Mic"] 0 true true true
    .timeout .timeout .unknownValue .unknownValue .unknownValue
    none none none none none 0 0 0 "x" none
    "Failed to generate text: request exception" "hello"
    (by decide) (by decide) rfl
  exact ⟨by decide, by decide, rfl, h.1, h.2.1, h.2.2.2.2.2⟩

/-- C8 counterexample: in the standalone loop at the bottom of
src/gpt4all_speech.py, the input "quit" terminates the session but the
farewell is only printed; speech_module.speak is never invoked, so no
farewell utterance is spoken. -/
theorem gpt4all_quit_farewell_not_spoken :
    (gpt4all_main_turn "quit" (some ⟨200, "hi"⟩)).terminated = true ∧
    (gpt4all_main_turn "quit" (some ⟨200, "hi"⟩)).printedFarewell = true ∧
    (gpt4all_main_turn "quit" (some ⟨200, "hi"⟩)).spoke = none := by
  decide

/-- C8 (amended): in both chat loops the session terminates exactly when
the input equals "quit", "exit" or "bye" case-insensitively; in
run_interactive the farewell "Goodbye!" is then spoken, while the
standalone gpt4all_speech loop prints the farewell without speaking it;
any other input does not terminate the loop. -/
theorem quit_words_terminate_loops (s : String) (resp : Option ChatResponse)
    (micAttr : Option Mic) (env : TurnEnv) :
    ((run_turn_typed s resp).terminated = true ↔
      quitWords.contains (pyLower s) = true) ∧
    (quitWords.contains (pyLower s) = true →
      (run_turn_typed s resp).spoken = some "Goodbye!") ∧
    ((gpt4all_main_turn s resp).terminated = true ↔
      quitWords.contains (pyLower s) = true) ∧
    (quitWords.contains (pyLower s) = true →
      (gpt4all_main_turn s resp).printedFarewell = true ∧
      (gpt4all_main_turn s resp).spoke = none) ∧
    ((run_turn micAttr env).2.terminated = true ↔
      quitWords.contains (pyLower (listen micAttr env.listenEnv).2) = true) := by
  refine ⟨?_, ?_, ?_, ?_, ?_⟩
  · by_cases hq : pyLower s ∈ quitWords
    · simp [run_turn_typed, hq]
    · rcases hg : generate_response resp with e | ok <;>
        simp [run_turn_typed, hq, hg]
  · intro hq
    simp at hq
    simp [run_turn_typed, hq]
  · by_cases hq : pyLower s ∈ quitWords
    · simp [gpt4all_main_turn, hq]
    · rcases hg : generate_text resp with e | ok <;>
        simp [gpt4all_main_turn, hq, hg]
  · intro hq
    simp at hq
    simp [gpt4all_main_turn, hq]
  · by_cases hu : (listen micAttr env.listenEnv).2 = ""
    · have hql : pyLower "" ∉ quitWords := by decide
      rw [hu]
      simp [run_turn, hu, hql]
    · by_cases hq : pyLower (listen micAttr env.listenEnv).2 ∈ quitWords
      · simp [run_turn, hu, hq]
      · rcases hg : generate_response env.apiResponse with e | ok <;>
          simp [run_turn, hu, hq, hg]

/-- Witness for C8 (amended) at the mixed-case input "QUIT". -/
theorem quit_words_terminate_loops_witness :
    quitWords.contains (pyLower "QUIT") = true ∧
    (run_turn_typed "QUIT" (some ⟨200, "hi"⟩)).spoken = some "Goodbye!" :=
  ⟨by decide,
   (quit_words_terminate_loops "QUIT" (some ⟨200, "hi"⟩) none
      ⟨⟨true, true, .timeout, .unknownValue⟩, none⟩).2.1 (by decide)⟩

/-- C9: in a choice-4 iteration with a valid index, self.microphone is
assigned to the chosen device before the extended probe runs, so when the
probe fails and the iteration returns to the menu the state keeps the
failed device; a later listen call then uses that device rather than
falling back to the system default. -/
theorem mic_assigned_before_failed_probe (st : SelState) (it : IterInput)
    (i : Int) (h4 : it.choice = "4") (hI : it.indexInput = some i)
    (hmem : i ∈ (get_valid_audio_sources it.names it.probeOk).map
      (fun p => (p.1 : Int)))
    (hfail : (test_audio_source it.names i.toNat it.testEnv).2 = false)
    (envL : AudioEnv) :
    setup_step st it = (⟨some (some i.toNat)⟩, none) ∧
    (listen (some (some i.toNat)) envL).1 = some i.toNat ∧
    (listen (some (some i.toNat)) envL).1 ≠ (none : Mic) := by
  have hEmp : (get_valid_audio_sources it.names it.probeOk).isEmpty = false := by
    rcases hl : get_valid_audio_sources it.names it.probeOk with _ | ⟨p, rest⟩
    · rw [hl] at hmem
      simp at hmem
    · rfl
  refine ⟨?_, rfl, by simp [listen]⟩
  simp [setup_step, h4, hI, hEmp, hmem, hfail]

/-- Witness for C9: device 0 passes the quick probe, the extended probe
times out, and the microphone field ends up pointing at device 0. -/
theorem mic_assigned_before_failed_probe_witness :
    (0 : Int) ∈ (get_valid_audio_sources ["Mic"] (fun _ => true)).map
      (fun p => (p.1 : Int)) ∧
    (test_audio_source ["Mic"] 0 ⟨true, true, .timeout, .unknownValue⟩).2 =
      false ∧
    setup_step ⟨none⟩
        ⟨"4", ["Mic"], fun _ => true, some 0,
          ⟨true, true, .timeout, .unknownValue⟩⟩ =
      (⟨some (some 0)⟩, none) :=
  ⟨by decide, by decide,
   (mic_assigned_before_failed_probe ⟨none⟩
      ⟨"4", ["Mic"], fun _ => true, some 0,
        ⟨true, true, .timeout, .unknownValue⟩⟩
      0 rfl rfl (by decide) (by decide)
      ⟨true, true, .timeout, .unknownValue⟩).1⟩

/-- C10: a voice-loop iteration whose listen result is empty skips the
turn without calling the completion API, without speaking, and without
terminating; and a terminating iteration requires a non-empty listen
result whose lowercase form is a quit word. -/
theorem empty_listen_skips_turn :
    (∀ (micAttr : Option Mic) (env : TurnEnv),
      (listen micAttr env.listenEnv).2 = "" →
      (run_turn micAttr env).2 = ⟨false, none, false⟩) ∧
    (∀ (micAttr : Option Mic) (env : TurnEnv),
      (run_turn micAttr env).2.terminated = true →
      (listen micAttr env.listenEnv).2 ≠ "" ∧
      quitWords.contains (pyLower (listen micAttr env.listenEnv).2) = true) := by
  constructor
  · intro micAttr env h
    simp [run_turn, h]
  · intro micAttr env h
    by_cases hu : (listen micAttr env.listenEnv).2 = ""
    · simp [run_turn, hu] at h
    · refine ⟨hu, ?_⟩
      by_cases hq : pyLower (listen micAttr env.listenEnv).2 ∈ quitWords
      · simpa using hq
      · exfalso
        rcases hg : generate_response env.apiResponse with e | ok <;>
          simp [run_turn, hu, hq, hg] at h

/-- Witness for C10: a silent turn is skipped, and a turn hearing "quit"
satisfies the termination characterization. -/
theorem empty_listen_skips_turn_witness :
    (listen none
        (⟨⟨true, true, .timeout, .unknownValue⟩, none⟩ : TurnEnv).listenEnv).2 =
      "" ∧
    (run_turn none ⟨⟨true, true, .timeout, .unknownValue⟩, none⟩).2 =
      ⟨false, none, false⟩ ∧
    (run_turn none
        ⟨⟨true, true, .audio 0, .text "quit"⟩, none⟩).2.terminated = true ∧
    (listen none
        (⟨⟨true, true, .audio 0, .text "quit"⟩, none⟩ : TurnEnv).listenEnv).2 ≠
      "" :=
  ⟨rfl,
   empty_listen_skips_turn.1 none ⟨⟨true, true, .timeout, .unknownValue⟩, none⟩
     rfl,
   by decide,
   (empty_listen_skips_turn.2 none
      ⟨⟨true, true, .audio 0, .text "quit"⟩, none⟩ (by decide)).1⟩

end LocalAISpeech
